import Mathlib

/-!
Shallow embedding of `src/grid2op/Environment/_env_prev_state.py`
(`_EnvPreviousState`): a previous-state snapshot of a power grid.

Modelling conventions:
* numpy float arrays are `List ℚ`, numpy int arrays are `List ℤ`,
  the boolean switch array is `List Bool`;
* in-place masked assignment `arr1[el_co] = 1. * arr1_new[el_co]` becomes a
  function returning the new list (elementwise, for equal-length arrays);
* a raised Python exception becomes `Except (SnapError × _EnvPreviousState) _`
  where the error carries the state of the object at the moment of the raise
  (in-place mutation performed before the raise is visible in that state);
* the numpy `flags.writeable` toggles of `_aux_modif` are subsumed by the
  `_can_modif` flag, which every mutating method checks first.
-/

/-- Error kinds raised by the snapshot (spec §7 taxonomy, plus the two
Python-runtime errors that are not in the documented taxonomy:
`sizeMismatch` for a numpy broadcast failure, `typeError` for `None`
where an array is required). -/
inductive SnapError where
  | immutableState
  | missingSwitchData
  | unsupportedDetailedTopology
  | sizeMismatch
  | typeError
deriving DecidableEq, Repr

/-- Decidable equality for `Except` results, so that witnesses can be
checked by evaluation. -/
instance {ε α : Type} [DecidableEq ε] [DecidableEq α] :
    DecidableEq (Except ε α) := fun
  | .error a, .error b =>
    if h : a = b then .isTrue (by rw [h])
    else .isFalse (by intro hc; cases hc; exact h rfl)
  | .error _, .ok _ => .isFalse (by intro hc; cases hc)
  | .ok _, .error _ => .isFalse (by intro hc; cases hc)
  | .ok a, .ok b =>
    if h : a = b then .isTrue (by rw [h])
    else .isFalse (by intro hc; cases hc; exact h rfl)

/-- The grid structural descriptor (`cls_to_dict` form of `GridObjects`):
the entries of `self._grid_obj_cls` that `_EnvPreviousState` reads.
`detailed_topo_desc` is `true` when the key is present and not `None`. -/
structure GridObjCls where
  name_storage : List String
  load_pos_topo_vect : List Nat
  gen_pos_topo_vect : List Nat
  storage_pos_topo_vect : List Nat
  n_busbar_per_sub : Int
  detailed_topo_desc : Bool
deriving DecidableEq, Repr

/-- The snapshot object (`_EnvPreviousState`).  All nine array attributes are
always present (as `__init__` sets them); `_switch_state` is `none` exactly
when `__init__` stored Python `None`. -/
structure _EnvPreviousState where
  _can_modif : Bool
  _grid_obj_cls : GridObjCls
  _load_p : List ℚ
  _load_q : List ℚ
  _gen_p : List ℚ
  _gen_v : List ℚ
  _storage_p : List ℚ
  _topo_vect : List Int
  _shunt_p : List ℚ
  _shunt_q : List ℚ
  _shunt_bus : List Int
  _switch_state : Option (List Bool)
deriving DecidableEq, Repr

namespace _EnvPreviousState

/-- `self._n_storage = len(self._grid_obj_cls["name_storage"])`. -/
def _n_storage (s : _EnvPreviousState) : Nat :=
  s._grid_obj_cls.name_storage.length

/-- `__init__`: every input array is copied (identity on immutable lists);
`_switch_state` is kept only when the descriptor declares a detailed topology,
otherwise it is set to `None`; the snapshot starts modifiable. -/
def mk_init (grid_obj_cls : GridObjCls)
    (init_load_p init_load_q init_gen_p init_gen_v : List ℚ)
    (init_topo_vect : List Int) (init_storage_p : List ℚ)
    (init_shunt_p init_shunt_q : List ℚ) (init_shunt_bus : List Int)
    (init_switch_state : Option (List Bool)) : _EnvPreviousState :=
  { _can_modif := true
    _grid_obj_cls := grid_obj_cls
    _load_p := init_load_p
    _load_q := init_load_q
    _gen_p := init_gen_p
    _gen_v := init_gen_v
    _storage_p := init_storage_p
    _topo_vect := init_topo_vect
    _shunt_p := init_shunt_p
    _shunt_q := init_shunt_q
    _shunt_bus := init_shunt_bus
    _switch_state :=
      if grid_obj_cls.detailed_topo_desc then init_switch_state else none }

/-- `copy`: rebuild through `__init__` from the current attributes. -/
def copy (s : _EnvPreviousState) : _EnvPreviousState :=
  mk_init s._grid_obj_cls s._load_p s._load_q s._gen_p s._gen_v
    s._topo_vect s._storage_p s._shunt_p s._shunt_q s._shunt_bus
    s._switch_state

/-- Fancy indexing `topo_vect[pos_topo_vect]`: gather the topology codes at
the given positions (out-of-range positions read as 0, whereas numpy would
raise; the claims below only exercise in-range positions). -/
def gatherAt (topo_vect : List Int) (pos : List Nat) : List Int :=
  pos.map (fun i => topo_vect.getD i 0)

/-- `_aux_update` for one array pair: `el_co = el_topo_vect > 0;`
`arr1[el_co] = 1. * arr1_new[el_co]`, elementwise for equal-length arrays
(the `1. *` factor is numerically the identity on ℚ and is omitted;
the two-pair Python call is modelled by applying this once per pair with the
same mask source). -/
def _aux_update : List Int → List ℚ → List ℚ → List ℚ
  | t :: ts, o :: os, n :: ns =>
      (if 0 < t then n else o) :: _aux_update ts os ns
  | _, os, _ => os

/-- `self._topo_vect[topo_vect > 0] = 1 * topo_vect[topo_vect > 0]`:
the mask comes from the new vector, elementwise for equal lengths (the
`1 *` factor is the identity and is omitted).  Also models the identical
statement for `_shunt_bus`/`shunt_bus`. -/
def maskedBusUpdate : List Int → List Int → List Int
  | o :: os, n :: ns => (if 0 < n then n else o) :: maskedBusUpdate os ns
  | os, _ => os

/-- The shunt block of `update` (lines 144-150): runs only when `shunt_p` is
not `None`; it then reads `shunt_bus` and `shunt_q`, so a `None` there is a
Python `TypeError` (raised with the state as mutated so far). -/
def shuntStep (s : _EnvPreviousState)
    (shunt_p shunt_q : Option (List ℚ)) (shunt_bus : Option (List Int)) :
    Except (SnapError × _EnvPreviousState) _EnvPreviousState :=
  match shunt_p with
  | none => .ok s
  | some sp =>
    match shunt_q, shunt_bus with
    | some sq, some sb =>
        .ok { s with
              _shunt_p := _aux_update sb s._shunt_p sp
              _shunt_q := _aux_update sb s._shunt_q sq
              _shunt_bus := maskedBusUpdate s._shunt_bus sb }
    | _, _ => .error (.typeError, s)

/-- Lines 125-150 of `update`: the load / generator / topology-vector part,
then storage (only when `self._n_storage > 0`; a `None` `storage_p` there is
a Python `TypeError`), then shunts. -/
def updateFields (s : _EnvPreviousState)
    (load_p load_q gen_p gen_v : List ℚ) (topo_vect : List Int)
    (storage_p : Option (List ℚ))
    (shunt_p shunt_q : Option (List ℚ)) (shunt_bus : Option (List Int)) :
    Except (SnapError × _EnvPreviousState) _EnvPreviousState :=
  let elLoad := gatherAt topo_vect s._grid_obj_cls.load_pos_topo_vect
  let elGen := gatherAt topo_vect s._grid_obj_cls.gen_pos_topo_vect
  let elSto := gatherAt topo_vect s._grid_obj_cls.storage_pos_topo_vect
  let s1 : _EnvPreviousState :=
    { s with
      _load_p := _aux_update elLoad s._load_p load_p
      _load_q := _aux_update elLoad s._load_q load_q
      _gen_p := _aux_update elGen s._gen_p gen_p
      _gen_v := _aux_update elGen s._gen_v gen_v
      _topo_vect := maskedBusUpdate s._topo_vect topo_vect }
  if 0 < s._n_storage then
    match storage_p with
    | none => .error (.typeError, s1)
    | some sp =>
        shuntStep { s1 with _storage_p := _aux_update elSto s1._storage_p sp }
          shunt_p shunt_q shunt_bus
  else
    shuntStep s1 shunt_p shunt_q shunt_bus

/-- `update` (lines 110-158): immutability gate first, then the field
updates, then the switch block: supplied switch values with no tracked
switch field, or a tracked switch field with no supplied values, raise
the `MissingSwitchData`-kind error (after the other fields were mutated);
when both are present `_switch_state` is fully overwritten. -/
def update (s : _EnvPreviousState)
    (load_p load_q gen_p gen_v : List ℚ) (topo_vect : List Int)
    (storage_p : Option (List ℚ))
    (shunt_p shunt_q : Option (List ℚ)) (shunt_bus : Option (List Int))
    (switches : Option (List Bool)) :
    Except (SnapError × _EnvPreviousState) _EnvPreviousState :=
  if s._can_modif then
    match updateFields s load_p load_q gen_p gen_v topo_vect storage_p
        shunt_p shunt_q shunt_bus with
    | .error e => .error e
    | .ok s1 =>
      match switches with
      | some sw =>
        match s1._switch_state with
        | none => .error (.missingSwitchData, s1)
        | some _ => .ok { s1 with _switch_state := some sw }
      | none =>
        match s1._switch_state with
        | some _ => .error (.missingSwitchData, s1)
        | none => .ok s1
  else .error (.immutableState, s)

end _EnvPreviousState

/-- The backend query interface (spec §6): the answers `update_from_backend`
reads from the backend collaborator. -/
structure Backend where
  topo_vect : List Int
  loads_p : List ℚ
  loads_q : List ℚ
  gens_p : List ℚ
  gens_q : List ℚ
  gens_v : List ℚ
  storages_p : List ℚ
  shunts_data_available : Bool
  shunt_setpoint_p : List ℚ
  shunt_setpoint_q : List ℚ
  shunt_setpoint_bus : List Int
deriving DecidableEq, Repr

namespace _EnvPreviousState

/-- `update_from_backend` (lines 160-188): immutability gate, query the
backend (storage only when `self._n_storage > 0`, shunts only when the
backend declares them), then delegate to `update` with switches absent
(switch extraction is commented out in the source). -/
def update_from_backend (s : _EnvPreviousState) (backend : Backend) :
    Except (SnapError × _EnvPreviousState) _EnvPreviousState :=
  if s._can_modif then
    let storage_p : Option (List ℚ) :=
      if 0 < s._n_storage then some backend.storages_p else none
    let shunt_p : Option (List ℚ) :=
      if backend.shunts_data_available then some backend.shunt_setpoint_p
      else none
    let shunt_q : Option (List ℚ) :=
      if backend.shunts_data_available then some backend.shunt_setpoint_q
      else none
    let shunt_bus : Option (List Int) :=
      if backend.shunts_data_available then some backend.shunt_setpoint_bus
      else none
    update s backend.loads_p backend.loads_q backend.gens_p backend.gens_v
      backend.topo_vect storage_p shunt_p shunt_q shunt_bus none
  else .error (.immutableState, s)

/-- One attribute of the `update_from_other` loop (lines 204-209):
`tmp[:] = deepcopy(other_attr)` when `tmp.size > 1` (same length: plain copy;
source of size 1: numpy broadcast fill; otherwise a broadcast error, `none`),
and a wholesale `setattr` replacement when `tmp.size <= 1`. -/
def copySlice [Inhabited α] (tmp src : List α) : Option (List α) :=
  if tmp.length ≤ 1 then some src
  else if src.length = tmp.length then some src
  else if src.length = 1 then some (List.replicate tmp.length src.headI)
  else none

/-- One step of the `update_from_other` loop: copy one attribute, raising the
broadcast error with the state mutated so far on failure. -/
def copyField [Inhabited α] (get : _EnvPreviousState → List α)
    (set : _EnvPreviousState → List α → _EnvPreviousState)
    (other s : _EnvPreviousState) :
    Except (SnapError × _EnvPreviousState) _EnvPreviousState :=
  match copySlice (get s) (get other) with
  | none => .error (.sizeMismatch, s)
  | some v => .ok (set s v)

/-- `update_from_other` (lines 190-212): immutability gate, then copy the
nine array attributes in source order, then `_switch_state[:] = other's`
when the receiver tracks switches (a `None` source there is a Python
error, `typeError`). -/
def update_from_other (s other : _EnvPreviousState) :
    Except (SnapError × _EnvPreviousState) _EnvPreviousState :=
  if s._can_modif then
    copyField (·._load_p) (fun t v => { t with _load_p := v }) other s >>=
    copyField (·._load_q) (fun t v => { t with _load_q := v }) other >>=
    copyField (·._gen_p) (fun t v => { t with _gen_p := v }) other >>=
    copyField (·._gen_v) (fun t v => { t with _gen_v := v }) other >>=
    copyField (·._storage_p) (fun t v => { t with _storage_p := v }) other >>=
    copyField (·._topo_vect) (fun t v => { t with _topo_vect := v }) other >>=
    copyField (·._shunt_p) (fun t v => { t with _shunt_p := v }) other >>=
    copyField (·._shunt_q) (fun t v => { t with _shunt_q := v }) other >>=
    copyField (·._shunt_bus) (fun t v => { t with _shunt_bus := v }) other >>=
    fun t =>
      match t._switch_state with
      | none => .ok t
      | some sw =>
        match other._switch_state with
        | none => .error (.typeError, t)
        | some osw =>
          match copySlice sw osw with
          | none => .error (.sizeMismatch, t)
          | some v => .ok { t with _switch_state := some v }
  else .error (.immutableState, s)

/-- `prevent_modification` (lines 214-216): revoke array writability
(subsumed by the flag) and clear the modification flag. -/
def prevent_modification (s : _EnvPreviousState) : _EnvPreviousState :=
  { s with _can_modif := false }

/-- `force_update` (lines 218-225): restore mutability, do a full
`update_from_other`, then re-freeze.  Since mutability was just restored the
immutability gate cannot fire; a broadcast failure inside
`update_from_other` would propagate as in the source. -/
def force_update (s other : _EnvPreviousState) :
    Except (SnapError × _EnvPreviousState) _EnvPreviousState :=
  match update_from_other { s with _can_modif := true } other with
  | .error e => .error e
  | .ok t => .ok (prevent_modification t)

/-- The invalid-code test of `fix_topo_bus` (lines 273-276):
`(tv <= -2) | (tv == 0) | (tv > n_busbar_per_sub)`. -/
def invalidCode (n_busbar : Int) (v : Int) : Bool :=
  decide (v ≤ -2) || decide (v = 0) || decide (n_busbar < v)

/-- `fix_topo_bus` (lines 258-287): if every code is valid, return
unchanged; otherwise fail on a tracked switch state, else apply the three
masked repairs in source order (`<= -2 → -1`, then `== 0 → -1`, then
`> n_busbar → 1`). -/
def fix_topo_bus (s : _EnvPreviousState) :
    Except (SnapError × _EnvPreviousState) _EnvPreviousState :=
  if ¬ (s._topo_vect.any (invalidCode s._grid_obj_cls.n_busbar_per_sub)) then
    .ok s
  else
    match s._switch_state with
    | some _ => .error (.unsupportedDetailedTopology, s)
    | none =>
      .ok { s with
            _topo_vect :=
              ((s._topo_vect.map (fun v => if v ≤ -2 then -1 else v)).map
                  (fun v => if v = 0 then -1 else v)).map
                (fun v => if s._grid_obj_cls.n_busbar_per_sub < v then 1
                          else v) }

end _EnvPreviousState

/-- The tag of one `where_different` entry (the value payloads of the
source's result tuples are abstracted away; the `missing_in_me` /
`missing_in_other` tags cannot occur for objects built by `__init__`, which
sets every attribute, and the `me_none` / `other_none` tags can only occur
for `_switch_state` in this model). -/
inductive DiffKind where
  | size
  | values
  | me_none
  | other_none
deriving DecidableEq, Repr

/-- `np.isclose` with the `np.allclose` default tolerances
(`atol = 1e-8`, `rtol = 1e-5`): `|a - b| <= atol + rtol * |b|`. -/
def isclose (a b : ℚ) : Bool :=
  decide (|a - b| ≤ 1 / 100000000 + |b| / 100000)

/-- `np.allclose` on two equal-length float arrays. -/
def allclose (xs ys : List ℚ) : Bool :=
  (xs.zip ys).all fun p => isclose p.1 p.2

/-- `np.allclose` on two equal-length integer arrays (numpy compares them
after conversion to float, same formula). -/
def allcloseInt (xs ys : List Int) : Bool :=
  (xs.zip ys).all fun p => isclose (p.1 : ℚ) (p.2 : ℚ)

namespace _EnvPreviousState

/-- One float attribute of the `where_different` loop: shape check, then
`np.allclose`. -/
def diffQ (nm : String) (a b : List ℚ) : List (String × DiffKind) :=
  if a.length ≠ b.length then [(nm, .size)]
  else if allclose a b then [] else [(nm, .values)]

/-- One integer attribute of the `where_different` loop. -/
def diffI (nm : String) (a b : List Int) : List (String × DiffKind) :=
  if a.length ≠ b.length then [(nm, .size)]
  else if allcloseInt a b then [] else [(nm, .values)]

/-- The `_switch_state` entry of the `where_different` loop: the attribute
is always present in this model, but its value may be Python `None` on
either side (numpy `allclose` on equal-length boolean arrays agrees with
exact equality, the tolerances being below 1). -/
def diffSwitch (a b : Option (List Bool)) : List (String × DiffKind) :=
  match a, b with
  | none, none => []
  | none, some _ => [("_switch_state", .me_none)]
  | some _, none => [("_switch_state", .other_none)]
  | some x, some y =>
    if x.length ≠ y.length then [("_switch_state", .size)]
    else if x = y then [] else [("_switch_state", .values)]

/-- `where_different` (lines 58-94): classify each attribute in source
order; attributes that match contribute nothing. -/
def where_different (s oth : _EnvPreviousState) : List (String × DiffKind) :=
  diffQ "_load_p" s._load_p oth._load_p ++
  diffQ "_load_q" s._load_q oth._load_q ++
  diffQ "_gen_p" s._gen_p oth._gen_p ++
  diffQ "_gen_v" s._gen_v oth._gen_v ++
  diffQ "_storage_p" s._storage_p oth._storage_p ++
  diffI "_topo_vect" s._topo_vect oth._topo_vect ++
  diffQ "_shunt_p" s._shunt_p oth._shunt_p ++
  diffQ "_shunt_q" s._shunt_q oth._shunt_q ++
  diffI "_shunt_bus" s._shunt_bus oth._shunt_bus ++
  diffSwitch s._switch_state oth._switch_state

/-- `__eq__` (lines 55-56): `len(self.where_different(value)) == 0`. -/
def eqSnap (s value : _EnvPreviousState) : Bool :=
  (s.where_different value).length == 0

end _EnvPreviousState


/-- A small concrete grid used for witnesses: two loads, one generator, one
storage unit, two busbars per substation, no detailed topology. -/
def exGrid : GridObjCls := ⟨["storage_0"], [0, 1], [2], [3], 2, false⟩

/-- A concrete snapshot over `exGrid`. -/
def exSnap : _EnvPreviousState :=
  ⟨true, exGrid, [1, 2], [3, 4], [5], [6], [7], [1, -1, 2, 1], [], [], [],
    none⟩

/-- `exSnap` frozen by `prevent_modification`. -/
def exFrozen : _EnvPreviousState := exSnap.prevent_modification

/-- A second snapshot over `exGrid`, same shapes as `exSnap`. -/
def exOther : _EnvPreviousState :=
  ⟨true, exGrid, [9, 8], [7, 6], [5], [4], [3], [2, 1, 1, 2], [], [], [],
    none⟩

/-- A concrete backend answering with `exGrid`-shaped data. -/
def exBackend : Backend :=
  ⟨[1, 1, 1, 1], [1, 1], [1, 1], [1], [1], [1], [1], false, [], [], []⟩

/-- A grid declaring a detailed-topology descriptor (switches tracked). -/
def exGridSw : GridObjCls := ⟨[], [0], [], [], 2, true⟩

/-- A switch-tracking snapshot whose topology vector is fully valid. -/
def exSnapSwValid : _EnvPreviousState :=
  ⟨true, exGridSw, [1], [1], [], [], [], [1, 2], [], [], [],
    some [true, false]⟩

/-- A switch-tracking snapshot with an invalid topology code. -/
def exSnapSwInvalid : _EnvPreviousState :=
  ⟨true, exGridSw, [1], [1], [], [], [], [0, 2], [], [], [],
    some [true, false]⟩

/-- A grid with no elements except the raw topology slots, busbar count 2. -/
def exGrid4 : GridObjCls := ⟨[], [], [], [], 2, false⟩

/-- The spec §8 repair scenario `[1, -1, 0, -3]`, busbar count 2. -/
def exSnapFix1 : _EnvPreviousState :=
  ⟨true, exGrid4, [], [], [], [], [], [1, -1, 0, -3], [], [], [], none⟩

/-- The spec §8 repair scenario `[3, 1]`, busbar count 2. -/
def exSnapFix2 : _EnvPreviousState :=
  ⟨true, exGrid4, [], [], [], [], [], [3, 1], [], [], [], none⟩

/-- The snapshot `exSnap` becomes after the concrete witness `update` call
(loads observed `[10, 20]` / `[30, 40]`, generator `[50]` / `[60]`, storage
`[70]`, new topology `[1, -1, 2, -1]`). -/
def exSnapAfter : _EnvPreviousState :=
  ⟨true, exGrid, [10, 2], [30, 4], [50], [60], [7], [1, -1, 2, 1], [], [], [],
    none⟩

namespace _EnvPreviousState

theorem aux_update_getD (el : List Int) :
    ∀ (old nw : List ℚ) (i : Nat),
      el.length = old.length → nw.length = old.length → i < old.length →
      (_aux_update el old nw).getD i 0 =
        if 0 < el.getD i 0 then nw.getD i 0 else old.getD i 0 := by
  induction el with
  | nil => intro old nw i h1 _ h3; simp at h1; omega
  | cons t ts ih =>
    intro old nw i h1 h2 h3
    cases old with
    | nil => simp at h3
    | cons o os =>
      cases nw with
      | nil => simp at h2
      | cons n ns =>
        cases i with
        | zero => simp [_aux_update]
        | succ j =>
          simp only [_aux_update, List.getD_cons_succ]
          exact ih os ns j (by simpa using h1) (by simpa using h2)
            (by simpa using h3)

theorem maskedBusUpdate_getD (old : List Int) :
    ∀ (nw : List Int) (i : Nat),
      nw.length = old.length → i < old.length →
      (maskedBusUpdate old nw).getD i 0 =
        if 0 < nw.getD i 0 then nw.getD i 0 else old.getD i 0 := by
  induction old with
  | nil => intro nw i _ h2; simp at h2
  | cons o os ih =>
    intro nw i h1 h2
    cases nw with
    | nil => simp at h1
    | cons n ns =>
      cases i with
      | zero => simp [maskedBusUpdate]
      | succ j =>
        simp only [maskedBusUpdate, List.getD_cons_succ]
        exact ih ns j (by simpa using h1) (by simpa using h2)

theorem gatherAt_getD (tv : List Int) (pos : List Nat) :
    ∀ (i : Nat), i < pos.length →
      (gatherAt tv pos).getD i 0 = tv.getD (pos.getD i 0) 0 := by
  induction pos with
  | nil => intro i h; simp at h
  | cons p ps ih =>
    intro i h
    cases i with
    | zero => simp [gatherAt]
    | succ j =>
      simp only [gatherAt, List.map_cons, List.getD_cons_succ]
      exact ih j (by simpa using h)

end _EnvPreviousState

namespace _EnvPreviousState

theorem updateFields_ok_spec (s s1 : _EnvPreviousState)
    (load_p load_q gen_p gen_v : List ℚ) (topo_vect : List Int)
    (storage_p : Option (List ℚ))
    (shunt_p shunt_q : Option (List ℚ)) (shunt_bus : Option (List Int))
    (h : updateFields s load_p load_q gen_p gen_v topo_vect storage_p
      shunt_p shunt_q shunt_bus = .ok s1) :
    s1._load_p = _aux_update (gatherAt topo_vect s._grid_obj_cls.load_pos_topo_vect) s._load_p load_p ∧
    s1._load_q = _aux_update (gatherAt topo_vect s._grid_obj_cls.load_pos_topo_vect) s._load_q load_q ∧
    s1._gen_p = _aux_update (gatherAt topo_vect s._grid_obj_cls.gen_pos_topo_vect) s._gen_p gen_p ∧
    s1._gen_v = _aux_update (gatherAt topo_vect s._grid_obj_cls.gen_pos_topo_vect) s._gen_v gen_v ∧
    s1._topo_vect = maskedBusUpdate s._topo_vect topo_vect ∧
    s1._switch_state = s._switch_state ∧
    s1._can_modif = s._can_modif ∧
    s1._grid_obj_cls = s._grid_obj_cls ∧
    (0 < s._n_storage → ∃ sp, storage_p = some sp ∧
      s1._storage_p = _aux_update (gatherAt topo_vect s._grid_obj_cls.storage_pos_topo_vect) s._storage_p sp) ∧
    (¬ 0 < s._n_storage → s1._storage_p = s._storage_p) := by
  unfold updateFields at h
  split at h
  next hsto =>
    cases storage_p with
    | none => simp at h
    | some sp =>
      simp only [Option.some.injEq] at h
      unfold shuntStep at h
      cases shunt_p with
      | none =>
        simp only [Except.ok.injEq] at h
        subst h
        refine ⟨rfl, rfl, rfl, rfl, rfl, rfl, rfl, rfl, ?_, ?_⟩
        · intro _; exact ⟨sp, rfl, rfl⟩
        · intro hc; exact absurd hsto hc
      | some shp =>
        cases shunt_q with
        | none => simp at h
        | some shq =>
          cases shunt_bus with
          | none => simp at h
          | some shb =>
            simp only [Except.ok.injEq] at h
            subst h
            refine ⟨rfl, rfl, rfl, rfl, rfl, rfl, rfl, rfl, ?_, ?_⟩
            · intro _; exact ⟨sp, rfl, rfl⟩
            · intro hc; exact absurd hsto hc
  next hsto =>
    unfold shuntStep at h
    cases shunt_p with
    | none =>
      simp only [Except.ok.injEq] at h
      subst h
      exact ⟨rfl, rfl, rfl, rfl, rfl, rfl, rfl, rfl, fun hc => absurd hc hsto, fun _ => rfl⟩
    | some shp =>
      cases shunt_q with
      | none => simp at h
      | some shq =>
        cases shunt_bus with
        | none => simp at h
        | some shb =>
          simp only [Except.ok.injEq] at h
          subst h
          exact ⟨rfl, rfl, rfl, rfl, rfl, rfl, rfl, rfl, fun hc => absurd hc hsto, fun _ => rfl⟩

end _EnvPreviousState

namespace _EnvPreviousState

theorem update_ok_spec (s s' : _EnvPreviousState)
    (load_p load_q gen_p gen_v : List ℚ) (topo_vect : List Int)
    (storage_p : Option (List ℚ))
    (shunt_p shunt_q : Option (List ℚ)) (shunt_bus : Option (List Int))
    (switches : Option (List Bool))
    (h : update s load_p load_q gen_p gen_v topo_vect storage_p
      shunt_p shunt_q shunt_bus switches = .ok s') :
    s._can_modif = true ∧
    s'._load_p = _aux_update (gatherAt topo_vect s._grid_obj_cls.load_pos_topo_vect) s._load_p load_p ∧
    s'._load_q = _aux_update (gatherAt topo_vect s._grid_obj_cls.load_pos_topo_vect) s._load_q load_q ∧
    s'._gen_p = _aux_update (gatherAt topo_vect s._grid_obj_cls.gen_pos_topo_vect) s._gen_p gen_p ∧
    s'._gen_v = _aux_update (gatherAt topo_vect s._grid_obj_cls.gen_pos_topo_vect) s._gen_v gen_v ∧
    s'._topo_vect = maskedBusUpdate s._topo_vect topo_vect ∧
    (0 < s._n_storage → ∃ sp, storage_p = some sp ∧
      s'._storage_p = _aux_update (gatherAt topo_vect s._grid_obj_cls.storage_pos_topo_vect) s._storage_p sp) ∧
    (¬ 0 < s._n_storage → s'._storage_p = s._storage_p) := by
  unfold update at h
  split at h
  next hcm =>
    cases huf : updateFields s load_p load_q gen_p gen_v topo_vect storage_p
        shunt_p shunt_q shunt_bus with
    | error e => rw [huf] at h; simp at h
    | ok s1 =>
      rw [huf] at h
      dsimp only at h
      obtain ⟨f1, f2, f3, f4, f5, fsw, _, _, f9, f10⟩ :=
        updateFields_ok_spec s s1 load_p load_q gen_p gen_v topo_vect
          storage_p shunt_p shunt_q shunt_bus huf
      cases switches with
      | some sw =>
        cases hss : s1._switch_state with
        | none => rw [hss] at h; dsimp only at h; simp at h
        | some osw =>
          rw [hss] at h
          dsimp only at h
          simp only [Except.ok.injEq] at h
          subst h
          exact ⟨hcm, f1, f2, f3, f4, f5, f9, f10⟩
      | none =>
        cases hss : s1._switch_state with
        | some osw => rw [hss] at h; dsimp only at h; simp at h
        | none =>
          rw [hss] at h
          dsimp only at h
          simp only [Except.ok.injEq] at h
          subst h
          exact ⟨hcm, f1, f2, f3, f4, f5, f9, f10⟩
  next hcm => simp at h

end _EnvPreviousState

namespace _EnvPreviousState

theorem gatherAt_length (tv : List Int) (pos : List Nat) :
    (gatherAt tv pos).length = pos.length := by
  simp [gatherAt]

theorem gated_getD (pos : List Nat) (tv : List Int) (old nw : List ℚ)
    (i : Nat) (hpos : pos.length = old.length) (hnw : nw.length = old.length)
    (hi : i < old.length) :
    (_aux_update (gatherAt tv pos) old nw).getD i 0 =
      if 0 < tv.getD (pos.getD i 0) 0 then nw.getD i 0 else old.getD i 0 := by
  rw [aux_update_getD (gatherAt tv pos) old nw i
      (by rw [gatherAt_length]; exact hpos) hnw hi,
    gatherAt_getD tv pos i (by omega)]

/-- C1: for every successful `update` call, each load, generator and (when a
storage unit exists) storage element whose new topology code at its
topology-vector position is positive gets its stored setpoint overwritten
with the new observed value, and each element with a non-positive code keeps
its stored setpoint unchanged. -/
theorem update_gates_setpoints
    (s s' : _EnvPreviousState) (load_p load_q gen_p gen_v : List ℚ)
    (topo_vect : List Int) (storage_p : Option (List ℚ))
    (shunt_p shunt_q : Option (List ℚ)) (shunt_bus : Option (List Int))
    (switches : Option (List Bool))
    (h : update s load_p load_q gen_p gen_v topo_vect storage_p
      shunt_p shunt_q shunt_bus switches = .ok s')
    (hLpos : s._grid_obj_cls.load_pos_topo_vect.length = s._load_p.length)
    (hLp : load_p.length = s._load_p.length)
    (hLqs : s._load_q.length = s._load_p.length)
    (hLq : load_q.length = s._load_p.length)
    (hGpos : s._grid_obj_cls.gen_pos_topo_vect.length = s._gen_p.length)
    (hGp : gen_p.length = s._gen_p.length)
    (hGvs : s._gen_v.length = s._gen_p.length)
    (hGv : gen_v.length = s._gen_p.length) :
    (∀ i, i < s._load_p.length →
      (0 < topo_vect.getD (s._grid_obj_cls.load_pos_topo_vect.getD i 0) 0 →
        s'._load_p.getD i 0 = load_p.getD i 0 ∧
        s'._load_q.getD i 0 = load_q.getD i 0) ∧
      (topo_vect.getD (s._grid_obj_cls.load_pos_topo_vect.getD i 0) 0 ≤ 0 →
        s'._load_p.getD i 0 = s._load_p.getD i 0 ∧
        s'._load_q.getD i 0 = s._load_q.getD i 0)) ∧
    (∀ i, i < s._gen_p.length →
      (0 < topo_vect.getD (s._grid_obj_cls.gen_pos_topo_vect.getD i 0) 0 →
        s'._gen_p.getD i 0 = gen_p.getD i 0 ∧
        s'._gen_v.getD i 0 = gen_v.getD i 0) ∧
      (topo_vect.getD (s._grid_obj_cls.gen_pos_topo_vect.getD i 0) 0 ≤ 0 →
        s'._gen_p.getD i 0 = s._gen_p.getD i 0 ∧
        s'._gen_v.getD i 0 = s._gen_v.getD i 0)) ∧
    (0 < s._n_storage → ∀ sp, storage_p = some sp →
      s._grid_obj_cls.storage_pos_topo_vect.length = s._storage_p.length →
      sp.length = s._storage_p.length →
      ∀ i, i < s._storage_p.length →
        (0 < topo_vect.getD
            (s._grid_obj_cls.storage_pos_topo_vect.getD i 0) 0 →
          s'._storage_p.getD i 0 = sp.getD i 0) ∧
        (topo_vect.getD (s._grid_obj_cls.storage_pos_topo_vect.getD i 0) 0
            ≤ 0 →
          s'._storage_p.getD i 0 = s._storage_p.getD i 0)) := by
  obtain ⟨-, f1, f2, f3, f4, -, f9, -⟩ :=
    update_ok_spec s s' load_p load_q gen_p gen_v topo_vect storage_p
      shunt_p shunt_q shunt_bus switches h
  refine ⟨?_, ?_, ?_⟩
  · intro i hi
    rw [f1, f2, gated_getD _ _ _ _ i hLpos hLp hi,
      gated_getD _ _ _ _ i (by omega) (by omega) (by omega)]
    constructor
    · intro hpos; rw [if_pos hpos, if_pos hpos]; exact ⟨rfl, rfl⟩
    · intro hneg
      rw [if_neg (by omega), if_neg (by omega)]; exact ⟨rfl, rfl⟩
  · intro i hi
    rw [f3, f4, gated_getD _ _ _ _ i hGpos hGp hi,
      gated_getD _ _ _ _ i (by omega) (by omega) (by omega)]
    constructor
    · intro hpos; rw [if_pos hpos, if_pos hpos]; exact ⟨rfl, rfl⟩
    · intro hneg
      rw [if_neg (by omega), if_neg (by omega)]; exact ⟨rfl, rfl⟩
  · intro hns sp hsp hSpos hSp i hi
    obtain ⟨sp', hsp', hst⟩ := f9 hns
    rw [hsp] at hsp'
    cases hsp'
    rw [hst, gated_getD _ _ _ _ i hSpos hSp hi]
    constructor
    · intro hpos; rw [if_pos hpos]
    · intro hneg; rw [if_neg (by omega)]

end _EnvPreviousState

namespace _EnvPreviousState

/-- Witness for C1 at the concrete snapshot `exSnap`. -/
theorem update_gates_setpoints_witness :
    update exSnap [10, 20] [30, 40] [50] [60] [1, -1, 2, -1] (some [70])
        none none none none = .ok exSnapAfter ∧
    ((∀ i, i < exSnap._load_p.length →
      (0 < [1, -1, 2, -1].getD
          (exSnap._grid_obj_cls.load_pos_topo_vect.getD i 0) 0 →
        exSnapAfter._load_p.getD i 0 = [10, 20].getD i 0 ∧
        exSnapAfter._load_q.getD i 0 = [30, 40].getD i 0) ∧
      ([1, -1, 2, -1].getD
          (exSnap._grid_obj_cls.load_pos_topo_vect.getD i 0) 0 ≤ 0 →
        exSnapAfter._load_p.getD i 0 = exSnap._load_p.getD i 0 ∧
        exSnapAfter._load_q.getD i 0 = exSnap._load_q.getD i 0)) ∧
    (∀ i, i < exSnap._gen_p.length →
      (0 < [1, -1, 2, -1].getD
          (exSnap._grid_obj_cls.gen_pos_topo_vect.getD i 0) 0 →
        exSnapAfter._gen_p.getD i 0 = [50].getD i 0 ∧
        exSnapAfter._gen_v.getD i 0 = [60].getD i 0) ∧
      ([1, -1, 2, -1].getD
          (exSnap._grid_obj_cls.gen_pos_topo_vect.getD i 0) 0 ≤ 0 →
        exSnapAfter._gen_p.getD i 0 = exSnap._gen_p.getD i 0 ∧
        exSnapAfter._gen_v.getD i 0 = exSnap._gen_v.getD i 0)) ∧
    (0 < exSnap._n_storage → ∀ sp, some [70] = some sp →
      exSnap._grid_obj_cls.storage_pos_topo_vect.length =
        exSnap._storage_p.length →
      sp.length = exSnap._storage_p.length →
      ∀ i, i < exSnap._storage_p.length →
        (0 < [1, -1, 2, -1].getD
            (exSnap._grid_obj_cls.storage_pos_topo_vect.getD i 0) 0 →
          exSnapAfter._storage_p.getD i 0 = sp.getD i 0) ∧
        ([1, -1, 2, -1].getD
            (exSnap._grid_obj_cls.storage_pos_topo_vect.getD i 0) 0 ≤ 0 →
          exSnapAfter._storage_p.getD i 0 = exSnap._storage_p.getD i 0))) :=
  ⟨by decide,
    update_gates_setpoints exSnap exSnapAfter [10, 20] [30, 40] [50] [60]
      [1, -1, 2, -1] (some [70]) none none none none (by decide) (by decide)
      (by decide) (by decide) (by decide) (by decide) (by decide) (by decide)
      (by decide)⟩

end _EnvPreviousState

namespace _EnvPreviousState

/-- C2: for every successful `update` call and every position of the
topology vector, a positive new code overwrites the stored code and a
non-positive new code leaves the stored code unchanged. -/
theorem update_gates_topo_vect
    (s s' : _EnvPreviousState) (load_p load_q gen_p gen_v : List ℚ)
    (topo_vect : List Int) (storage_p : Option (List ℚ))
    (shunt_p shunt_q : Option (List ℚ)) (shunt_bus : Option (List Int))
    (switches : Option (List Bool))
    (h : update s load_p load_q gen_p gen_v topo_vect storage_p
      shunt_p shunt_q shunt_bus switches = .ok s')
    (hT : topo_vect.length = s._topo_vect.length) :
    ∀ i, i < s._topo_vect.length →
      (0 < topo_vect.getD i 0 →
        s'._topo_vect.getD i 0 = topo_vect.getD i 0) ∧
      (topo_vect.getD i 0 ≤ 0 →
        s'._topo_vect.getD i 0 = s._topo_vect.getD i 0) := by
  obtain ⟨-, -, -, -, -, f5, -, -⟩ :=
    update_ok_spec s s' load_p load_q gen_p gen_v topo_vect storage_p
      shunt_p shunt_q shunt_bus switches h
  intro i hi
  rw [f5, maskedBusUpdate_getD s._topo_vect topo_vect i hT hi]
  constructor
  · intro hpos; rw [if_pos hpos]
  · intro hneg; rw [if_neg (by omega)]

/-- Witness for C2 at the concrete snapshot `exSnap`. -/
theorem update_gates_topo_vect_witness :
    update exSnap [10, 20] [30, 40] [50] [60] [1, -1, 2, -1] (some [70])
        none none none none = .ok exSnapAfter ∧
    (∀ i, i < exSnap._topo_vect.length →
      (0 < [1, -1, 2, -1].getD i 0 →
        exSnapAfter._topo_vect.getD i 0 = [1, -1, 2, -1].getD i 0) ∧
      ([1, -1, 2, -1].getD i 0 ≤ 0 →
        exSnapAfter._topo_vect.getD i 0 = exSnap._topo_vect.getD i 0)) :=
  ⟨by decide,
    update_gates_topo_vect exSnap exSnapAfter [10, 20] [30, 40] [50] [60]
      [1, -1, 2, -1] (some [70]) none none none none (by decide) (by decide)⟩

end _EnvPreviousState

namespace _EnvPreviousState

/-- C3: on a frozen snapshot, `update`, `update_from_backend` and
`update_from_other` all fail with the immutable-state error, and the error
carries the snapshot unchanged (the check precedes every field write). -/
theorem frozen_mutators_fail (s : _EnvPreviousState)
    (hcm : s._can_modif = false) :
    (∀ (load_p load_q gen_p gen_v : List ℚ) (topo_vect : List Int)
        (storage_p : Option (List ℚ)) (shunt_p shunt_q : Option (List ℚ))
        (shunt_bus : Option (List Int)) (switches : Option (List Bool)),
      update s load_p load_q gen_p gen_v topo_vect storage_p shunt_p
        shunt_q shunt_bus switches = .error (.immutableState, s)) ∧
    (∀ backend : Backend,
      update_from_backend s backend = .error (.immutableState, s)) ∧
    (∀ other : _EnvPreviousState,
      update_from_other s other = .error (.immutableState, s)) := by
  refine ⟨?_, ?_, ?_⟩
  · intro lp lq gp gv tv stp shp shq shb sw
    simp [update, hcm]
  · intro b
    simp [update_from_backend, hcm]
  · intro oth
    simp [update_from_other, hcm]

/-- Witness for C3 at the concrete frozen snapshot `exFrozen`. -/
theorem frozen_mutators_fail_witness :
    exFrozen._can_modif = false ∧
    update exFrozen [10, 20] [30, 40] [50] [60] [1, -1, 2, -1] (some [70])
      none none none none = .error (.immutableState, exFrozen) ∧
    update_from_backend exFrozen exBackend =
      .error (.immutableState, exFrozen) ∧
    update_from_other exFrozen exOther = .error (.immutableState, exFrozen) :=
  ⟨by decide,
    (frozen_mutators_fail exFrozen (by decide)).1 [10, 20] [30, 40] [50] [60]
      [1, -1, 2, -1] (some [70]) none none none none,
    (frozen_mutators_fail exFrozen (by decide)).2.1 exBackend,
    (frozen_mutators_fail exFrozen (by decide)).2.2 exOther⟩

end _EnvPreviousState

namespace _EnvPreviousState

theorem copySlice_eq_of {α : Type} [Inhabited α] (tmp src : List α)
    (h : src.length = tmp.length) : copySlice tmp src = some src := by
  simp [copySlice, h]

/-- C4: `force_update` on a frozen snapshot (matching field sizes and switch
presence) copies every stored field from `other` and leaves the snapshot
frozen again: any subsequent mutating call fails with the immutable-state
error. -/
theorem force_update_spec (s other : _EnvPreviousState)
    (_hcm : s._can_modif = false)
    (h1 : other._load_p.length = s._load_p.length)
    (h2 : other._load_q.length = s._load_q.length)
    (h3 : other._gen_p.length = s._gen_p.length)
    (h4 : other._gen_v.length = s._gen_v.length)
    (h5 : other._storage_p.length = s._storage_p.length)
    (h6 : other._topo_vect.length = s._topo_vect.length)
    (h7 : other._shunt_p.length = s._shunt_p.length)
    (h8 : other._shunt_q.length = s._shunt_q.length)
    (h9 : other._shunt_bus.length = s._shunt_bus.length)
    (hsw : (s._switch_state = none ∧ other._switch_state = none) ∨
      (∃ a b, s._switch_state = some a ∧ other._switch_state = some b ∧
        b.length = a.length)) :
    ∃ t, force_update s other = .ok t ∧
      t._load_p = other._load_p ∧ t._load_q = other._load_q ∧
      t._gen_p = other._gen_p ∧ t._gen_v = other._gen_v ∧
      t._storage_p = other._storage_p ∧ t._topo_vect = other._topo_vect ∧
      t._shunt_p = other._shunt_p ∧ t._shunt_q = other._shunt_q ∧
      t._shunt_bus = other._shunt_bus ∧
      t._switch_state = other._switch_state ∧
      t._can_modif = false ∧
      (∀ (load_p load_q gen_p gen_v : List ℚ) (topo_vect : List Int)
          (storage_p : Option (List ℚ)) (shunt_p shunt_q : Option (List ℚ))
          (shunt_bus : Option (List Int)) (switches : Option (List Bool)),
        update t load_p load_q gen_p gen_v topo_vect storage_p shunt_p
          shunt_q shunt_bus switches = .error (.immutableState, t)) ∧
      (∀ other2 : _EnvPreviousState,
        update_from_other t other2 = .error (.immutableState, t)) := by
  have hmain : update_from_other { s with _can_modif := true } other =
      .ok { s with
            _can_modif := true
            _load_p := other._load_p
            _load_q := other._load_q
            _gen_p := other._gen_p
            _gen_v := other._gen_v
            _storage_p := other._storage_p
            _topo_vect := other._topo_vect
            _shunt_p := other._shunt_p
            _shunt_q := other._shunt_q
            _shunt_bus := other._shunt_bus
            _switch_state := other._switch_state } := by
    rcases hsw with ⟨hs, ho⟩ | ⟨a, b, hs, ho, hl⟩
    · simp [update_from_other, copyField, hs, ho,
        copySlice_eq_of _ _ h1, copySlice_eq_of _ _ h2,
        copySlice_eq_of _ _ h3, copySlice_eq_of _ _ h4,
        copySlice_eq_of _ _ h5, copySlice_eq_of _ _ h6,
        copySlice_eq_of _ _ h7, copySlice_eq_of _ _ h8,
        copySlice_eq_of _ _ h9, Bind.bind, Except.bind]
    · simp [update_from_other, copyField, hs, ho,
        copySlice_eq_of _ _ h1, copySlice_eq_of _ _ h2,
        copySlice_eq_of _ _ h3, copySlice_eq_of _ _ h4,
        copySlice_eq_of _ _ h5, copySlice_eq_of _ _ h6,
        copySlice_eq_of _ _ h7, copySlice_eq_of _ _ h8,
        copySlice_eq_of _ _ h9, copySlice_eq_of _ _ hl,
        Bind.bind, Except.bind]
  refine ⟨{ s with
      _can_modif := false
      _load_p := other._load_p
      _load_q := other._load_q
      _gen_p := other._gen_p
      _gen_v := other._gen_v
      _storage_p := other._storage_p
      _topo_vect := other._topo_vect
      _shunt_p := other._shunt_p
      _shunt_q := other._shunt_q
      _shunt_bus := other._shunt_bus
      _switch_state := other._switch_state },
    ?_, rfl, rfl, rfl, rfl, rfl, rfl, rfl, rfl, rfl, rfl, rfl, ?_, ?_⟩
  · unfold force_update
    rw [hmain]
    rfl
  · intro lp lq gp gv tv stp shp shq shb sw
    simp [update]
  · intro oth2
    simp [update_from_other]

/-- Witness for C4: `exFrozen` force-updated from `exOther`. -/
theorem force_update_spec_witness :
    exFrozen._can_modif = false ∧
    (∃ t, force_update exFrozen exOther = .ok t ∧
      t._load_p = exOther._load_p ∧ t._load_q = exOther._load_q ∧
      t._gen_p = exOther._gen_p ∧ t._gen_v = exOther._gen_v ∧
      t._storage_p = exOther._storage_p ∧
      t._topo_vect = exOther._topo_vect ∧
      t._shunt_p = exOther._shunt_p ∧ t._shunt_q = exOther._shunt_q ∧
      t._shunt_bus = exOther._shunt_bus ∧
      t._switch_state = exOther._switch_state ∧
      t._can_modif = false ∧
      (∀ (load_p load_q gen_p gen_v : List ℚ) (topo_vect : List Int)
          (storage_p : Option (List ℚ)) (shunt_p shunt_q : Option (List ℚ))
          (shunt_bus : Option (List Int)) (switches : Option (List Bool)),
        update t load_p load_q gen_p gen_v topo_vect storage_p shunt_p
          shunt_q shunt_bus switches = .error (.immutableState, t)) ∧
      (∀ other2 : _EnvPreviousState,
        update_from_other t other2 = .error (.immutableState, t))) :=
  ⟨by decide,
    force_update_spec exFrozen exOther (by decide) (by decide) (by decide)
      (by decide) (by decide) (by decide) (by decide) (by decide) (by decide)
      (by decide) (Or.inl ⟨by decide, by decide⟩)⟩

end _EnvPreviousState

namespace _EnvPreviousState

theorem map_fixes_of_valid (f : Int → Int) :
    ∀ l : List Int, (∀ v ∈ l, f v = v) → l.map f = l := by
  intro l h
  induction l with
  | nil => rfl
  | cons a t ih =>
    simp only [List.map_cons]
    rw [h a (by simp), ih (fun v hv => h v (by simp [hv]))]

/-- C5 counterexample: a snapshot that carries switch-level state but whose
topology vector is fully valid; `fix_topo_bus` succeeds without error and
without change, so the claim "always fails" is false as stated. -/
theorem fix_topo_bus_switch_counterexample :
    exSnapSwValid._switch_state.isSome = true ∧
    fix_topo_bus exSnapSwValid = .ok exSnapSwValid := by
  exact ⟨by decide, by decide⟩

/-- C5 amended: on a snapshot carrying switch-level state whose topology
vector contains at least one invalid code, `fix_topo_bus` fails with the
`UnsupportedDetailedTopology` error, carrying the snapshot unchanged (when
every code is valid it instead returns with no error and no change). -/
theorem fix_topo_bus_switch_error (s : _EnvPreviousState) (sw : List Bool)
    (hsw : s._switch_state = some sw)
    (hinv : s._topo_vect.any
      (invalidCode s._grid_obj_cls.n_busbar_per_sub) = true) :
    fix_topo_bus s = .error (.unsupportedDetailedTopology, s) := by
  simp [fix_topo_bus, hinv, hsw]

/-- Witness for the amended C5 at `exSnapSwInvalid`. -/
theorem fix_topo_bus_switch_error_witness :
    exSnapSwInvalid._switch_state = some [true, false] ∧
    exSnapSwInvalid._topo_vect.any
      (invalidCode exSnapSwInvalid._grid_obj_cls.n_busbar_per_sub) = true ∧
    fix_topo_bus exSnapSwInvalid =
      .error (.unsupportedDetailedTopology, exSnapSwInvalid) :=
  ⟨by decide, by decide,
    fix_topo_bus_switch_error exSnapSwInvalid [true, false] (by decide)
      (by decide)⟩

/-- C6: without switch-level state and with a busbar count of at least 1,
`fix_topo_bus` maps codes `<= -2` and `0` to `-1`, codes above the busbar
count to `1`, and leaves every other code unchanged; in particular the two
spec scenarios with busbar count 2. -/
theorem fix_topo_bus_mapping (s : _EnvPreviousState)
    (hsw : s._switch_state = none)
    (hn : 1 ≤ s._grid_obj_cls.n_busbar_per_sub) :
    (fix_topo_bus s = .ok { s with
      _topo_vect := s._topo_vect.map (fun v =>
        if v ≤ -2 ∨ v = 0 then -1
        else if s._grid_obj_cls.n_busbar_per_sub < v then 1 else v) }) ∧
    fix_topo_bus exSnapFix1 =
      .ok { exSnapFix1 with _topo_vect := [1, -1, -1, -1] } ∧
    fix_topo_bus exSnapFix2 = .ok { exSnapFix2 with _topo_vect := [1, 1] } := by
  refine ⟨?_, by decide, by decide⟩
  by_cases hany : s._topo_vect.any
      (invalidCode s._grid_obj_cls.n_busbar_per_sub) = true
  · simp only [fix_topo_bus, hany, not_true_eq_false, if_false, hsw]
    congr 1
    simp only [List.map_map]
    have hfg : ((fun v =>
        if s._grid_obj_cls.n_busbar_per_sub < v then (1 : Int) else v) ∘
          (fun v => if v = 0 then -1 else v) ∘
            fun v => if v ≤ -2 then -1 else v) =
        fun v => if v ≤ -2 ∨ v = 0 then (-1 : Int)
          else if s._grid_obj_cls.n_busbar_per_sub < v then 1 else v := by
      funext v
      simp only [Function.comp]
      split_ifs <;> omega
    rw [hfg]
  · have hfalse : s._topo_vect.any
        (invalidCode s._grid_obj_cls.n_busbar_per_sub) = false := by
      simpa using hany
    have hmap : s._topo_vect.map (fun v =>
        if v ≤ -2 ∨ v = 0 then (-1 : Int)
        else if s._grid_obj_cls.n_busbar_per_sub < v then 1 else v) =
        s._topo_vect := by
      apply map_fixes_of_valid
      intro v hv
      have hval := List.any_eq_false.mp hfalse v hv
      simp [invalidCode] at hval
      split_ifs <;> omega
    simp [fix_topo_bus, hfalse, hmap]

end _EnvPreviousState

namespace _EnvPreviousState

/-- Witness for C6 at `exSnapFix1`. -/
theorem fix_topo_bus_mapping_witness :
    (exSnapFix1._switch_state = none ∧
      1 ≤ exSnapFix1._grid_obj_cls.n_busbar_per_sub) ∧
    ((fix_topo_bus exSnapFix1 = .ok { exSnapFix1 with
      _topo_vect := exSnapFix1._topo_vect.map (fun v =>
        if v ≤ -2 ∨ v = 0 then -1
        else if exSnapFix1._grid_obj_cls.n_busbar_per_sub < v then 1
          else v) }) ∧
    fix_topo_bus exSnapFix1 =
      .ok { exSnapFix1 with _topo_vect := [1, -1, -1, -1] } ∧
    fix_topo_bus exSnapFix2 =
      .ok { exSnapFix2 with _topo_vect := [1, 1] }) :=
  ⟨⟨by decide, by decide⟩,
    fix_topo_bus_mapping exSnapFix1 (by decide) (by decide)⟩

/-- C7: for a snapshot without switch-level state, `fix_topo_bus` is
idempotent, and (for a busbar count of at least 1) it leaves an
already-valid topology vector (codes in `{-1}` or `1..n_busbar`) unchanged. -/
theorem fix_topo_bus_idempotent (s s' : _EnvPreviousState)
    (hsw : s._switch_state = none)
    (h : fix_topo_bus s = .ok s') :
    fix_topo_bus s' = .ok s' ∧
    (1 ≤ s._grid_obj_cls.n_busbar_per_sub →
      (∀ v ∈ s._topo_vect,
        v = -1 ∨ (1 ≤ v ∧ v ≤ s._grid_obj_cls.n_busbar_per_sub)) →
      s' = s) := by
  by_cases hany : s._topo_vect.any
      (invalidCode s._grid_obj_cls.n_busbar_per_sub) = true
  · simp only [fix_topo_bus, hany, not_true_eq_false, if_false, hsw] at h
    obtain rfl := Except.ok.inj h
    constructor
    · by_cases hany2 : (((s._topo_vect.map
            (fun v => if v ≤ -2 then -1 else v)).map
              (fun v => if v = 0 then -1 else v)).map
            (fun v => if s._grid_obj_cls.n_busbar_per_sub < v then 1
                      else v)).any
          (invalidCode s._grid_obj_cls.n_busbar_per_sub) = true
      · simp only [fix_topo_bus, hany2, not_true_eq_false, if_false]
        congr 2
        simp only [List.map_map]
        have hFG : ((fun v =>
            if s._grid_obj_cls.n_busbar_per_sub < v then (1 : Int) else v) ∘
              (fun v => if v = 0 then -1 else v) ∘
                (fun v => if v ≤ -2 then -1 else v) ∘
                  (fun v =>
                    if s._grid_obj_cls.n_busbar_per_sub < v then (1 : Int)
                    else v) ∘
                    (fun v => if v = 0 then -1 else v) ∘
                      fun v => if v ≤ -2 then -1 else v) =
            ((fun v =>
              if s._grid_obj_cls.n_busbar_per_sub < v then (1 : Int) else v) ∘
                (fun v => if v = 0 then -1 else v) ∘
                  fun v => if v ≤ -2 then -1 else v) := by
          funext v
          simp only [Function.comp]
          split_ifs <;> omega
        rw [hFG]
      · simp only [fix_topo_bus]
        exact if_pos hany2
    · intro hn hvalid
      exfalso
      obtain ⟨v, hv, hinv⟩ := List.any_eq_true.mp hany
      have := hvalid v hv
      simp [invalidCode] at hinv
      omega
  · simp only [fix_topo_bus, hany, Bool.not_eq_true] at h
    simp only [eq_self_iff_true, not_false_eq_true, if_true] at h
    have hss : s = s' := by
      by_cases hb : s._topo_vect.any
          (invalidCode s._grid_obj_cls.n_busbar_per_sub) = true
      · exact absurd hb hany
      · simpa [hb] using h
    subst hss
    refine ⟨?_, fun _ _ => rfl⟩
    simp [fix_topo_bus, hany]

end _EnvPreviousState

namespace _EnvPreviousState

/-- Witness for C7 at `exSnapFix1`. -/
theorem fix_topo_bus_idempotent_witness :
    exSnapFix1._switch_state = none ∧
    fix_topo_bus exSnapFix1 =
      .ok { exSnapFix1 with _topo_vect := [1, -1, -1, -1] } ∧
    (fix_topo_bus { exSnapFix1 with _topo_vect := [1, -1, -1, -1] } =
      .ok { exSnapFix1 with _topo_vect := [1, -1, -1, -1] } ∧
    (1 ≤ exSnapFix1._grid_obj_cls.n_busbar_per_sub →
      (∀ v ∈ exSnapFix1._topo_vect,
        v = -1 ∨ (1 ≤ v ∧ v ≤ exSnapFix1._grid_obj_cls.n_busbar_per_sub)) →
      { exSnapFix1 with _topo_vect := [1, -1, -1, -1] } = exSnapFix1)) :=
  ⟨by decide, by decide,
    fix_topo_bus_idempotent exSnapFix1
      { exSnapFix1 with _topo_vect := [1, -1, -1, -1] } (by decide)
      (by decide)⟩

end _EnvPreviousState

namespace _EnvPreviousState

theorem updateFields_ok_exists (s : _EnvPreviousState)
    (load_p load_q gen_p gen_v : List ℚ) (topo_vect : List Int)
    (storage_p : Option (List ℚ))
    (shunt_p shunt_q : Option (List ℚ)) (shunt_bus : Option (List Int))
    (hsto : 0 < s._n_storage → storage_p.isSome)
    (hsh : shunt_p.isSome → shunt_q.isSome ∧ shunt_bus.isSome) :
    ∃ s1, updateFields s load_p load_q gen_p gen_v topo_vect storage_p
      shunt_p shunt_q shunt_bus = .ok s1 := by
  unfold updateFields
  split
  next h =>
    cases hstp : storage_p with
    | none => exact absurd (hsto h) (by simp [hstp])
    | some sp =>
      unfold shuntStep
      cases shunt_p with
      | none => exact ⟨_, rfl⟩
      | some shp =>
        obtain ⟨hq, hb⟩ := hsh (by simp)
        cases shunt_q with
        | none => simp at hq
        | some shq =>
          cases shunt_bus with
          | none => simp at hb
          | some shb => exact ⟨_, rfl⟩
  next h =>
    unfold shuntStep
    cases shunt_p with
    | none => exact ⟨_, rfl⟩
    | some shp =>
      obtain ⟨hq, hb⟩ := hsh (by simp)
      cases shunt_q with
      | none => simp at hq
      | some shq =>
        cases shunt_bus with
        | none => simp at hb
        | some shb => exact ⟨_, rfl⟩

theorem update_switch_cases (s : _EnvPreviousState)
    (load_p load_q gen_p gen_v : List ℚ) (topo_vect : List Int)
    (storage_p : Option (List ℚ))
    (shunt_p shunt_q : Option (List ℚ)) (shunt_bus : Option (List Int))
    (switches : Option (List Bool))
    (hcm : s._can_modif = true) (s1 : _EnvPreviousState)
    (huf : updateFields s load_p load_q gen_p gen_v topo_vect storage_p
      shunt_p shunt_q shunt_bus = .ok s1) :
    update s load_p load_q gen_p gen_v topo_vect storage_p shunt_p shunt_q
      shunt_bus switches =
      match switches, s1._switch_state with
      | some sw, some _ => .ok { s1 with _switch_state := some sw }
      | some _, none => .error (.missingSwitchData, s1)
      | none, some _ => .error (.missingSwitchData, s1)
      | none, none => .ok s1 := by
  simp only [update, hcm, if_true, huf]
  cases switches <;> cases h1 : s1._switch_state <;> simp [h1]

end _EnvPreviousState

namespace _EnvPreviousState

/-- C8: an `update` call on an unfrozen snapshot (with consistent storage
and shunt arguments) fails with the `MissingSwitchData` error if and only if
exactly one of "switch values supplied" / "snapshot tracks a switch field"
holds; when both hold, `_switch_state` is fully overwritten with the
supplied values. -/
theorem update_switch_mismatch_iff (s : _EnvPreviousState)
    (load_p load_q gen_p gen_v : List ℚ) (topo_vect : List Int)
    (storage_p : Option (List ℚ))
    (shunt_p shunt_q : Option (List ℚ)) (shunt_bus : Option (List Int))
    (switches : Option (List Bool))
    (hcm : s._can_modif = true)
    (hsto : 0 < s._n_storage → storage_p.isSome)
    (hsh : shunt_p.isSome → shunt_q.isSome ∧ shunt_bus.isSome) :
    ((∃ s'', update s load_p load_q gen_p gen_v topo_vect storage_p shunt_p
        shunt_q shunt_bus switches = .error (.missingSwitchData, s'')) ↔
      switches.isSome ≠ s._switch_state.isSome) ∧
    (∀ sw, switches = some sw → s._switch_state.isSome = true →
      ∃ s', update s load_p load_q gen_p gen_v topo_vect storage_p shunt_p
          shunt_q shunt_bus switches = .ok s' ∧
        s'._switch_state = some sw) := by
  obtain ⟨s1, huf⟩ := updateFields_ok_exists s load_p load_q gen_p gen_v
    topo_vect storage_p shunt_p shunt_q shunt_bus hsto hsh
  obtain ⟨-, -, -, -, -, hsw1, -, -, -, -⟩ := updateFields_ok_spec s s1
    load_p load_q gen_p gen_v topo_vect storage_p shunt_p shunt_q shunt_bus
    huf
  have hc := update_switch_cases s load_p load_q gen_p gen_v topo_vect
    storage_p shunt_p shunt_q shunt_bus switches hcm s1 huf
  constructor
  · constructor
    · rintro ⟨s'', hs''⟩
      cases hswc : switches with
      | some sw =>
        cases hss : s._switch_state with
        | some l =>
          exfalso
          subst hswc
          rw [hss] at hsw1
          rw [hsw1] at hc
          dsimp only at hc
          rw [hc] at hs''
          simp at hs''
        | none => simp [hswc, hss]
      | none =>
        cases hss : s._switch_state with
        | some l => simp [hswc, hss]
        | none =>
          exfalso
          subst hswc
          rw [hss] at hsw1
          rw [hsw1] at hc
          dsimp only at hc
          rw [hc] at hs''
          simp at hs''
    · intro hne
      cases hswc : switches with
      | some sw =>
        cases hss : s._switch_state with
        | some l =>
          exfalso
          subst hswc
          rw [hss] at hne
          simp at hne
        | none =>
          refine ⟨s1, ?_⟩
          subst hswc
          rw [hss] at hsw1
          rw [hsw1] at hc
          dsimp only at hc
          exact hc
      | none =>
        cases hss : s._switch_state with
        | some l =>
          refine ⟨s1, ?_⟩
          subst hswc
          rw [hss] at hsw1
          rw [hsw1] at hc
          dsimp only at hc
          exact hc
        | none =>
          exfalso
          subst hswc
          rw [hss] at hne
          simp at hne
  · intro sw hswc hssome
    cases hss : s._switch_state with
    | none => rw [hss] at hssome; simp at hssome
    | some l =>
      refine ⟨{ s1 with _switch_state := some sw }, ?_, rfl⟩
      subst hswc
      rw [hss] at hsw1
      rw [hsw1] at hc
      dsimp only at hc
      exact hc

end _EnvPreviousState

namespace _EnvPreviousState

/-- Witness for C8 at the switch-tracking snapshot `exSnapSwValid`. -/
theorem update_switch_mismatch_iff_witness :
    exSnapSwValid._can_modif = true ∧
    (((∃ s'', update exSnapSwValid [9] [9] [] [] [1, 1] none none none none
        (some [false, false]) = .error (.missingSwitchData, s'')) ↔
      (some [false, false]).isSome ≠ exSnapSwValid._switch_state.isSome) ∧
    (∀ sw, some [false, false] = some sw →
      exSnapSwValid._switch_state.isSome = true →
      ∃ s', update exSnapSwValid [9] [9] [] [] [1, 1] none none none none
          (some [false, false]) = .ok s' ∧
        s'._switch_state = some sw)) :=
  ⟨by decide,
    update_switch_mismatch_iff exSnapSwValid [9] [9] [] [] [1, 1] none none
      none none (some [false, false]) (by decide) (by decide) (by decide)⟩

end _EnvPreviousState

namespace _EnvPreviousState

theorem isclose_self (a : ℚ) : isclose a a = true := by
  simp only [isclose, sub_self, abs_zero, decide_eq_true_eq]
  positivity

theorem allclose_self (xs : List ℚ) : allclose xs xs = true := by
  induction xs with
  | nil => rfl
  | cons a t ih =>
    simp only [allclose, List.zip_cons_cons, List.all_cons]
    rw [isclose_self]
    simpa [allclose] using ih

theorem allcloseInt_self (xs : List Int) : allcloseInt xs xs = true := by
  induction xs with
  | nil => rfl
  | cons a t ih =>
    simp only [allcloseInt, List.zip_cons_cons, List.all_cons]
    rw [isclose_self]
    simpa [allcloseInt] using ih

theorem diffQ_self (nm : String) (a : List ℚ) : diffQ nm a a = [] := by
  simp [diffQ, allclose_self]

theorem diffI_self (nm : String) (a : List Int) : diffI nm a a = [] := by
  simp [diffI, allcloseInt_self]

theorem diffSwitch_self (o : Option (List Bool)) : diffSwitch o o = [] := by
  cases o <;> simp [diffSwitch]

/-- C9: a snapshot equals its own copy (`where_different` empty, `__eq__`
true), and in general two snapshots are `__eq__`-equal exactly when their
diff mapping is empty. -/
theorem eq_iff_diff_empty (s : _EnvPreviousState)
    (hwf : s._switch_state.isSome = s._grid_obj_cls.detailed_topo_desc) :
    (where_different s (copy s) = [] ∧ eqSnap s (copy s) = true) ∧
    (∀ a b : _EnvPreviousState,
      eqSnap a b = true ↔ where_different a b = []) := by
  have hswcopy : (copy s)._switch_state = s._switch_state := by
    cases hd : s._grid_obj_cls.detailed_topo_desc with
    | true => simp [copy, mk_init, hd]
    | false =>
      rw [hd] at hwf
      have : s._switch_state = none := by
        cases hs : s._switch_state with
        | none => rfl
        | some l => rw [hs] at hwf; simp at hwf
      simp [copy, mk_init, hd, this]
  have hdiff : where_different s (copy s) = [] := by
    unfold where_different
    rw [hswcopy]
    show diffQ "_load_p" s._load_p s._load_p ++
      diffQ "_load_q" s._load_q s._load_q ++
      diffQ "_gen_p" s._gen_p s._gen_p ++
      diffQ "_gen_v" s._gen_v s._gen_v ++
      diffQ "_storage_p" s._storage_p s._storage_p ++
      diffI "_topo_vect" s._topo_vect s._topo_vect ++
      diffQ "_shunt_p" s._shunt_p s._shunt_p ++
      diffQ "_shunt_q" s._shunt_q s._shunt_q ++
      diffI "_shunt_bus" s._shunt_bus s._shunt_bus ++
      diffSwitch s._switch_state s._switch_state = []
    simp [diffQ_self, diffI_self, diffSwitch_self]
  refine ⟨⟨hdiff, ?_⟩, ?_⟩
  · simp [eqSnap, hdiff]
  · intro a b
    simp [eqSnap, List.length_eq_zero]

/-- Witness for C9 at `exSnap`. -/
theorem eq_iff_diff_empty_witness :
    exSnap._switch_state.isSome = exSnap._grid_obj_cls.detailed_topo_desc ∧
    ((where_different exSnap (copy exSnap) = [] ∧
      eqSnap exSnap (copy exSnap) = true) ∧
    (∀ a b : _EnvPreviousState,
      eqSnap a b = true ↔ where_different a b = [])) :=
  ⟨by decide, eq_iff_diff_empty exSnap (by decide)⟩

end _EnvPreviousState

namespace _EnvPreviousState

theorem updateFields_ok_shunt (s s1 : _EnvPreviousState)
    (load_p load_q gen_p gen_v : List ℚ) (topo_vect : List Int)
    (storage_p : Option (List ℚ))
    (shunt_p shunt_q : Option (List ℚ)) (shunt_bus : Option (List Int))
    (h : updateFields s load_p load_q gen_p gen_v topo_vect storage_p
      shunt_p shunt_q shunt_bus = .ok s1) :
    (shunt_p = none → s1._shunt_p = s._shunt_p ∧ s1._shunt_q = s._shunt_q ∧
      s1._shunt_bus = s._shunt_bus) ∧
    (∀ sp sq sb, shunt_p = some sp → shunt_q = some sq →
      shunt_bus = some sb →
      s1._shunt_p = _aux_update sb s._shunt_p sp ∧
      s1._shunt_q = _aux_update sb s._shunt_q sq ∧
      s1._shunt_bus = maskedBusUpdate s._shunt_bus sb) := by
  unfold updateFields at h
  split at h
  next hsto =>
    cases storage_p with
    | none => simp at h
    | some sp0 =>
      unfold shuntStep at h
      cases shunt_p with
      | none =>
        simp only [Except.ok.injEq] at h
        subst h
        constructor
        · intro _
          exact ⟨rfl, rfl, rfl⟩
        · intro sp sq sb hp _ _
          cases hp
      | some shp =>
        cases shunt_q with
        | none => simp at h
        | some shq =>
          cases shunt_bus with
          | none => simp at h
          | some shb =>
            simp only [Except.ok.injEq] at h
            subst h
            constructor
            · intro hp
              cases hp
            · intro sp sq sb hp hq hb
              cases hp; cases hq; cases hb
              exact ⟨rfl, rfl, rfl⟩
  next hsto =>
    unfold shuntStep at h
    cases shunt_p with
    | none =>
      simp only [Except.ok.injEq] at h
      subst h
      constructor
      · intro _
        exact ⟨rfl, rfl, rfl⟩
      · intro sp sq sb hp _ _
        cases hp
    | some shp =>
      cases shunt_q with
      | none => simp at h
      | some shq =>
        cases shunt_bus with
        | none => simp at h
        | some shb =>
          simp only [Except.ok.injEq] at h
          subst h
          constructor
          · intro hp
            cases hp
          · intro sp sq sb hp hq hb
            cases hp; cases hq; cases hb
            exact ⟨rfl, rfl, rfl⟩

/-- C10: when `update` on an unfrozen snapshot raises the switch-mismatch
(`MissingSwitchData`) error, the load, generator and topology-vector fields
(and, when shunt values were supplied, the shunt fields) have already been
overwritten: the failing call leaves the snapshot partially mutated. -/
theorem update_switch_mismatch_partial_mutation (s : _EnvPreviousState)
    (load_p load_q gen_p gen_v : List ℚ) (topo_vect : List Int)
    (storage_p : Option (List ℚ))
    (shunt_p shunt_q : Option (List ℚ)) (shunt_bus : Option (List Int))
    (switches : Option (List Bool))
    (hcm : s._can_modif = true)
    (hsto : 0 < s._n_storage → storage_p.isSome)
    (hsh : shunt_p.isSome → shunt_q.isSome ∧ shunt_bus.isSome)
    (hmismatch : switches.isSome ≠ s._switch_state.isSome) :
    ∃ s'', update s load_p load_q gen_p gen_v topo_vect storage_p shunt_p
        shunt_q shunt_bus switches = .error (.missingSwitchData, s'') ∧
      s''._load_p = _aux_update
        (gatherAt topo_vect s._grid_obj_cls.load_pos_topo_vect)
        s._load_p load_p ∧
      s''._load_q = _aux_update
        (gatherAt topo_vect s._grid_obj_cls.load_pos_topo_vect)
        s._load_q load_q ∧
      s''._gen_p = _aux_update
        (gatherAt topo_vect s._grid_obj_cls.gen_pos_topo_vect)
        s._gen_p gen_p ∧
      s''._gen_v = _aux_update
        (gatherAt topo_vect s._grid_obj_cls.gen_pos_topo_vect)
        s._gen_v gen_v ∧
      s''._topo_vect = maskedBusUpdate s._topo_vect topo_vect ∧
      (∀ sp sq sb, shunt_p = some sp → shunt_q = some sq →
        shunt_bus = some sb →
        s''._shunt_p = _aux_update sb s._shunt_p sp ∧
        s''._shunt_q = _aux_update sb s._shunt_q sq ∧
        s''._shunt_bus = maskedBusUpdate s._shunt_bus sb) := by
  obtain ⟨s1, huf⟩ := updateFields_ok_exists s load_p load_q gen_p gen_v
    topo_vect storage_p shunt_p shunt_q shunt_bus hsto hsh
  obtain ⟨f1, f2, f3, f4, f5, hsw1, -, -, -, -⟩ := updateFields_ok_spec s s1
    load_p load_q gen_p gen_v topo_vect storage_p shunt_p shunt_q shunt_bus
    huf
  obtain ⟨-, hshunt⟩ := updateFields_ok_shunt s s1 load_p load_q gen_p gen_v
    topo_vect storage_p shunt_p shunt_q shunt_bus huf
  have hc := update_switch_cases s load_p load_q gen_p gen_v topo_vect
    storage_p shunt_p shunt_q shunt_bus switches hcm s1 huf
  cases hswc : switches with
  | some sw =>
    subst hswc
    cases hss : s._switch_state with
    | some l => rw [hss] at hmismatch; simp at hmismatch
    | none =>
      rw [hss] at hsw1
      rw [hsw1] at hc
      dsimp only at hc
      exact ⟨s1, hc, f1, f2, f3, f4, f5, hshunt⟩
  | none =>
    subst hswc
    cases hss : s._switch_state with
    | none => rw [hss] at hmismatch; simp at hmismatch
    | some l =>
      rw [hss] at hsw1
      rw [hsw1] at hc
      dsimp only at hc
      exact ⟨s1, hc, f1, f2, f3, f4, f5, hshunt⟩

/-- Witness for C10: the mismatch call at `exSnap` (no tracked switch field,
switch values supplied) errors while carrying the already-updated fields. -/
theorem update_switch_mismatch_partial_mutation_witness :
    exSnap._can_modif = true ∧
    (some [true] : Option (List Bool)).isSome ≠ exSnap._switch_state.isSome ∧
    (∃ s'', update exSnap [10, 20] [30, 40] [50] [60] [1, -1, 2, -1]
        (some [70]) none none none (some [true]) =
        .error (.missingSwitchData, s'') ∧
      s''._load_p = _aux_update
        (gatherAt [1, -1, 2, -1] exSnap._grid_obj_cls.load_pos_topo_vect)
        exSnap._load_p [10, 20] ∧
      s''._load_q = _aux_update
        (gatherAt [1, -1, 2, -1] exSnap._grid_obj_cls.load_pos_topo_vect)
        exSnap._load_q [30, 40] ∧
      s''._gen_p = _aux_update
        (gatherAt [1, -1, 2, -1] exSnap._grid_obj_cls.gen_pos_topo_vect)
        exSnap._gen_p [50] ∧
      s''._gen_v = _aux_update
        (gatherAt [1, -1, 2, -1] exSnap._grid_obj_cls.gen_pos_topo_vect)
        exSnap._gen_v [60] ∧
      s''._topo_vect = maskedBusUpdate exSnap._topo_vect [1, -1, 2, -1] ∧
      (∀ sp sq sb, (none : Option (List ℚ)) = some sp →
        (none : Option (List ℚ)) = some sq →
        (none : Option (List Int)) = some sb →
        s''._shunt_p = _aux_update sb exSnap._shunt_p sp ∧
        s''._shunt_q = _aux_update sb exSnap._shunt_q sq ∧
        s''._shunt_bus = maskedBusUpdate exSnap._shunt_bus sb)) :=
  ⟨by decide, by decide,
    update_switch_mismatch_partial_mutation exSnap [10, 20] [30, 40] [50]
      [60] [1, -1, 2, -1] (some [70]) none none none (some [true])
      (by decide) (by decide) (by decide) (by decide)⟩

end _EnvPreviousState
